import Mathlib

/-!
Shallow embedding of the identity-resolution / reconciliation core of
`src/etl/etl_script.py` (class `PremierLeagueETL`), together with theorems
settling the spec claims about it.

Conventions used throughout:
* Python `str` is Lean `String`; Python `None` is `Option.none`.
* Python's string methods are modelled by structurally recursive functions
  over the character list: `.strip()` is `pyStrip`, `.lower()` is
  `pyLower`, `s.split(sep, 1)` is `pySplitOnce`, and `sep in s` is
  `(pySplitOnce s sep).isSome`.
* A Python `dict` built from a literal association list is modelled by
  `pyDictLookup` on the literal entry list: a later binding for the same
  key overwrites an earlier one, exactly as in Python.
* `pd.isna` on string inputs is `False`, so it is not modelled; the
  Python truthiness test `if not s` on a string is `s = ""`, and the same
  test on an optional string is `pyTruthy`.
* SQL `NULL` is `Option.none`; `COALESCE(a, b)` on an optional `a` and a
  non-null `b` is `Option.getD a b`.
-/

/-- Python `str.lower()` (the names involved are ASCII). -/
def pyLower (s : String) : String :=
  String.mk (s.data.map Char.toLower)

/-- Python `str.strip()`: drop leading and trailing whitespace. -/
def pyStrip (s : String) : String :=
  String.mk
    (((s.data.dropWhile Char.isWhitespace).reverse.dropWhile
      Char.isWhitespace).reverse)

/-- Helper for `pySplitOnce`: scan for the first occurrence of the
(non-empty) pattern `pat`, accumulating the part already scanned in
reversed order. -/
def splitOnceAux (pat : List Char) : List Char → List Char →
    Option (List Char × List Char)
  | _, [] => none
  | acc, c :: rest =>
    if pat.isPrefixOf (c :: rest) then
      some (acc.reverse, (c :: rest).drop pat.length)
    else splitOnceAux pat (c :: acc) rest

/-- Python `s.split(sep, 1)` for a non-empty separator, fused with the
`sep in s` membership test: `some (before, after)` around the first
occurrence of `sep`, or `none` when `sep` does not occur in `s`. -/
def pySplitOnce (s sep : String) : Option (String × String) :=
  (splitOnceAux sep.data [] s.data).map
    (fun p => (String.mk p.1, String.mk p.2))

/-- Lookup in a Python dict built from a literal entry list: the value of
the LAST binding of the key wins (later duplicate literal keys overwrite
earlier ones). -/
def pyDictLookup (es : List (String × String)) (k : String) : Option String :=
  es.reverse.lookup k

/-- Python truthiness of an optional string (the scripts test ids and
match keys with `if not x`): `None` and the empty string are falsy, every
other string is truthy. -/
def pyTruthy (o : Option String) : Bool :=
  match o with
  | none => false
  | some s => s ≠ ""

/-- A single apostrophe character, used when reproducing the quoting in
the script's error-message strings. -/
def sQuote : String := "\x27"

/-- Quote a string in single quotes, as the script's f-strings do. -/
def quoteStr (s : String) : String := sQuote ++ s ++ sQuote

/-- Entry list of the class attribute `TEAM_NAME_MAPPING`
(`src/etl/etl_script.py` lines 204-278), in literal order. The key
`"bfc"` occurs twice, first bound to `"Brentford"` and later to
`"Burnley"`, exactly as in the Python source. -/
def TEAM_NAME_MAPPING_entries : List (String × String) :=
  [ ("man utd", "Manchester United"),
    ("manchester utd", "Manchester United"),
    ("man u", "Manchester United"),
    ("manchester united", "Manchester United"),
    ("mufc", "Manchester United"),
    ("man city", "Manchester City"),
    ("manchester city", "Manchester City"),
    ("mcfc", "Manchester City"),
    ("liverpool", "Liverpool"),
    ("lfc", "Liverpool"),
    ("chelsea", "Chelsea"),
    ("cfc", "Chelsea"),
    ("arsenal", "Arsenal"),
    ("afc", "Arsenal"),
    ("tottenham", "Tottenham Hotspur"),
    ("spurs", "Tottenham Hotspur"),
    ("tottenham hotspur", "Tottenham Hotspur"),
    ("thfc", "Tottenham Hotspur"),
    ("brighton", "Brighton & Hove Albion"),
    ("brighton & hove albion", "Brighton & Hove Albion"),
    ("brighton and hove albion", "Brighton & Hove Albion"),
    ("west ham", "West Ham United"),
    ("west ham united", "West Ham United"),
    ("whu", "West Ham United"),
    ("newcastle", "Newcastle United"),
    ("newcastle united", "Newcastle United"),
    ("nufc", "Newcastle United"),
    ("crystal palace", "Crystal Palace"),
    ("cpfc", "Crystal Palace"),
    ("fulham", "Fulham"),
    ("ffc", "Fulham"),
    ("wolves", "Wolverhampton Wanderers"),
    ("wolverhampton", "Wolverhampton Wanderers"),
    ("wolverhampton wanderers", "Wolverhampton Wanderers"),
    ("wwfc", "Wolverhampton Wanderers"),
    ("everton", "Everton"),
    ("efc", "Everton"),
    ("aston villa", "Aston Villa"),
    ("villa", "Aston Villa"),
    ("avfc", "Aston Villa"),
    ("bournemouth", "AFC Bournemouth"),
    ("afc bournemouth", "AFC Bournemouth"),
    ("brentford", "Brentford"),
    ("bfc", "Brentford"),
    ("nottingham forest", "Nottingham Forest"),
    ("nffc", "Nottingham Forest"),
    ("luton", "Luton Town"),
    ("luton town", "Luton Town"),
    ("ltfc", "Luton Town"),
    ("sheffield united", "Sheffield United"),
    ("sheff utd", "Sheffield United"),
    ("sufc", "Sheffield United"),
    ("burnley", "Burnley"),
    ("bfc", "Burnley") ]

/-- Entry list of the class attribute `PREMIER_LEAGUE_STATS_MAPPING`
(`src/etl/etl_script.py` lines 281-305), in literal order. -/
def PREMIER_LEAGUE_STATS_MAPPING_entries : List (String × String) :=
  [ ("Man City", "Manchester City"),
    ("Man Utd", "Manchester United"),
    ("Brighton", "Brighton & Hove Albion"),
    ("Brighton & Hove Albion", "Brighton & Hove Albion"),
    ("West Ham", "West Ham United"),
    ("Newcastle", "Newcastle United"),
    ("Crystal Palace", "Crystal Palace"),
    ("Wolves", "Wolverhampton Wanderers"),
    ("Wolverhampton", "Wolverhampton Wanderers"),
    ("Aston Villa", "Aston Villa"),
    ("Bournemouth", "Bournemouth"),
    ("AFC Bournemouth", "Bournemouth"),
    ("Nottingham Forest", "Nottingham Forest"),
    ("Sheffield Utd", "Sheffield United"),
    ("Tottenham", "Tottenham Hotspur"),
    ("Luton", "Luton Town"),
    ("Arsenal", "Arsenal"),
    ("Liverpool", "Liverpool"),
    ("Chelsea", "Chelsea"),
    ("Everton", "Everton"),
    ("Fulham", "Fulham"),
    ("Brentford", "Brentford"),
    ("Burnley", "Burnley") ]

/-- `normalize_team_name` (`src/etl/etl_script.py` lines 375-408).
The fuzzy matcher `process.extractOne(team_name, known_teams,
scorer=fuzz.token_sort_ratio)` is a library call on the raw (un-trimmed)
input; it is modelled as an abstract argument `fuzzy` returning the best
candidate and its score, so that theorems can quantify over it. -/
def normalize_team_name (fuzzy : String → Option (String × Nat))
    (fuzzy_threshold : Nat) (team_name : String) : Option String :=
  if team_name = "" then none
  else
    let team_name_lower := pyLower (pyStrip team_name)
    match pyDictLookup TEAM_NAME_MAPPING_entries team_name_lower with
    | some v => some v
    | none =>
      match fuzzy team_name with
      | some result =>
          if fuzzy_threshold ≤ result.2 then some result.1 else none
      | none => none

/-- The separator list of `parse_fixture` (`src/etl/etl_script.py` line
1306), in the order the source tries them. -/
def FIXTURE_SEPARATORS : List String := [" at ", " vs ", " - ", " v ", " @ "]

/-- The separator loop of `parse_fixture` (`src/etl/etl_script.py` lines
1308-1321). Python's `split(sep, 1)` with the separator present always
yields exactly two parts, so the source's `len(parts) == 2` guard always
holds in the branch where `sep in fixture_str`. -/
def parse_fixture_go : List String → String → Option String × Option String
  | [], _ => (none, none)
  | sep :: rest, fixture_str =>
    match pySplitOnce fixture_str sep with
    | some parts =>
      let team1 := pyStrip parts.1
      let team2 := pyStrip parts.2
      if sep = " at " ∨ sep = " @ " then
        (some team2, some team1)
      else
        (some team1, some team2)
    | none => parse_fixture_go rest fixture_str

/-- `parse_fixture` (`src/etl/etl_script.py` lines 1285-1325). -/
def parse_fixture (fixture : String) : Option String × Option String :=
  if fixture = "" then (none, none)
  else parse_fixture_go FIXTURE_SEPARATORS (pyStrip fixture)

/-- The null-sentinel list shared by the field cleaners
(`value_str.lower() in ['null', 'none', '', 'nan']`). -/
def NULL_SENTINELS : List String := ["null", "none", "", "nan"]

/-- `re.sub(r'[^\d\-]', '', value_str)`: keep only (ASCII) digits and the
minus sign. -/
def stripToDigitsMinus (s : String) : String :=
  String.mk (s.data.filter (fun c => c.isDigit || c = '-'))

/-- Decimal value of a digit list. -/
def digitsToNat (cs : List Char) : Nat :=
  cs.foldl (fun n c => 10 * n + (c.toNat - 48)) 0

/-- Python `int(float(x))` applied to a string consisting only of digits
and minus signs: it succeeds exactly when `x` is an optional leading minus
followed by at least one digit; on failure the cleaners catch the
exception. (Float rounding of integers beyond 2^53 is not modelled; the
cleaned statistic fields are small.) -/
def pyIntOfFloatDigits (s : String) : Option Int :=
  match s.data with
  | [] => none
  | '-' :: rest =>
    if rest ≠ [] ∧ rest.all (fun c => c.isDigit) then
      some (-(digitsToNat rest : Int))
    else none
  | cs =>
    if cs.all (fun c => c.isDigit) then some ((digitsToNat cs : Int))
    else none

/-- `clean_int` (`src/etl/etl_script.py` lines 1224-1251). -/
def clean_int (value : String) : Int :=
  let value_str := pyStrip value
  if pyLower value_str ∈ NULL_SENTINELS then 0
  else
    let digits := stripToDigitsMinus value_str
    if digits = "" ∨ digits = "-" then 0
    else
      match pyIntOfFloatDigits digits with
      | some n => n
      | none => 0

/-- `clean_corners` (`src/etl/etl_script.py` lines 1253-1283): the body
duplicates `clean_int`; the extra `team_name` argument is used only for
logging. -/
def clean_corners (value : String) (_team_name : String) : Int :=
  let value_str := pyStrip value
  if pyLower value_str ∈ NULL_SENTINELS then 0
  else
    let digits := stripToDigitsMinus value_str
    if digits = "" ∨ digits = "-" then 0
    else
      match pyIntOfFloatDigits digits with
      | some n => n
      | none => 0

/-- `normalize_team_name_with_map` (`src/etl/etl_script.py` lines
1327-1362). `TEAM_NAME_MAP` is imported from the module `team_name_map`,
which is not part of this repository snapshot, so it is passed as an
explicit entry-list parameter and theorems quantify over it. The source's
case-insensitive pass iterates `TEAM_NAME_MAP.items()`; for an entry list
without duplicate keys this is `List.find?` over the entries (and the
claims below only use the case where this pass finds nothing, on which
both orders agree). -/
def normalize_team_name_with_map (TEAM_NAME_MAP : List (String × String))
    (fuzzy : String → Option (String × Nat)) (team_name : String) :
    Option String :=
  if team_name = "" then none
  else
    let team_name_str := pyStrip team_name
    match pyDictLookup TEAM_NAME_MAP team_name_str with
    | some v => some v
    | none =>
      let team_name_lower := pyLower team_name_str
      match TEAM_NAME_MAP.find? (fun kv => pyLower kv.1 == team_name_lower) with
      | some kv => some kv.2
      | none =>
        match pyDictLookup PREMIER_LEAGUE_STATS_MAPPING_entries team_name_str with
        | some v => some v
        | none =>
          match normalize_team_name fuzzy 80 team_name_str with
          | some normalized =>
              if normalized = "" then some team_name_str else some normalized
          | none => some team_name_str

/-- `match_csv_row_to_master_map` (`src/etl/etl_script.py` lines
1903-1931). `team_id_map` and `master_match_map` are the dictionaries
built from the store scans, modelled as abstract lookup functions; the
row's already-parsed date is modelled as its ISO string form (`none` when
the date is missing/unparseable), which is exactly the form interpolated
into the composite key. Returns `(match_id, mapping_error)`. -/
def match_csv_row_to_master_map
    (team_id_map master_match_map : String → Option String)
    (csv_home_team csv_away_team : String) (csv_date : Option String) :
    Option String × Option String :=
  match csv_date with
  | none => (none, some "MAPPING_ERROR: Invalid date")
  | some csv_date =>
    let csv_home_team_id := team_id_map csv_home_team
    let csv_away_team_id := team_id_map csv_away_team
    if ! pyTruthy csv_home_team_id then
      (none, some ("MAPPING_ERROR: Home team " ++ quoteStr csv_home_team
        ++ " not found in database"))
    else if ! pyTruthy csv_away_team_id then
      (none, some ("MAPPING_ERROR: Away team " ++ quoteStr csv_away_team
        ++ " not found in database"))
    else
      let key := csv_date ++ "_" ++ csv_home_team_id.getD ""
        ++ "_" ++ csv_away_team_id.getD ""
      let match_id := master_match_map key
      if ! pyTruthy match_id then
        (none, some ("MAPPING_ERROR: No exact match found for key "
          ++ quoteStr key ++ " (Date: " ++ csv_date ++ ", Home: "
          ++ csv_home_team ++ ", Away: " ++ csv_away_team ++ ")"))
      else
        (match_id, none)

/-- The per-match info stored in `match_info_map` that `identify_team_id`
consults (home/away identifiers; names are used only for logging). -/
structure MatchInfo where
  home_team_id : String
  away_team_id : String
deriving DecidableEq

/-- `identify_team_id` (`src/etl/etl_script.py` lines 1965-1990). Returns
`(team_id, team_id_error)`. -/
def identify_team_id (match_info_map : String → Option MatchInfo)
    (team_id_map : String → Option String)
    (match_id : Option String) (csv_team_normalized : String) :
    Option String × Option String :=
  if ! pyTruthy match_id then (none, none)
  else
    match match_info_map (match_id.getD "") with
    | none => (none, some "Team identification error: Match info not found")
    | some match_info =>
      let csv_team_id := team_id_map csv_team_normalized
      if ! pyTruthy csv_team_id then
        (none, some ("Team identification error: Team "
          ++ quoteStr csv_team_normalized ++ " not found in database"))
      else
        let tid := csv_team_id.getD ""
        if tid = match_info.home_team_id then (some tid, none)
        else if tid = match_info.away_team_id then (some tid, none)
        else
          (none, some ("Team identification error: Team "
            ++ quoteStr csv_team_normalized ++ " (id: " ++ tid
            ++ ") does not match home_team_id (" ++ match_info.home_team_id
            ++ ") or away_team_id (" ++ match_info.away_team_id
            ++ ") for match " ++ match_id.getD ""))

/-- One persisted match record as scanned by `load_match_stats` when
building the master match map (`src/etl/etl_script.py` lines 1853-1875);
the date is modelled by its ISO string form, which is what the source
interpolates into the key. -/
structure MatchRec where
  match_id : String
  match_date : String
  home_team_id : String
  away_team_id : String
deriving DecidableEq

/-- The composite key `f"{match_date}_{home_team_id}_{away_team_id}"`
(braces shown here stand for f-string interpolation). -/
def masterKey (r : MatchRec) : String :=
  r.match_date ++ "_" ++ r.home_team_id ++ "_" ++ r.away_team_id

/-- One iteration of the master-map construction loop
(`src/etl/etl_script.py` lines 1864-1875): a key already present is
reported as a duplicate (the source logs it) and the map is left
unchanged; otherwise the key is inserted. The state is
`(master_match_map, duplicate reports)`. -/
def buildStep (acc : List (String × String) × List (String × String))
    (r : MatchRec) : List (String × String) × List (String × String) :=
  if (acc.1.lookup (masterKey r)).isSome then
    (acc.1, acc.2 ++ [(masterKey r, r.match_id)])
  else
    (acc.1 ++ [(masterKey r, r.match_id)], acc.2)

/-- The master match map construction (`src/etl/etl_script.py` lines
1849-1875), over the scanned match records in order. -/
def buildMasterMatchMap (ms : List MatchRec) :
    List (String × String) × List (String × String) :=
  ms.foldl buildStep ([], [])

/-- The incoming per-(match, team) statistic field values bound as SQL
parameters by `load_match_stats` (`src/etl/etl_script.py` lines
2401-2411). SQL `NULL` is `none`; numeric values are rationals. -/
structure StatFields where
  shots_on_target : Option ℚ
  accurate_passes : Option ℚ
  fouls_committed : Option ℚ
  corners : Option ℚ
  possession_pct : Option ℚ
  total_shots : Option ℚ
  formation : Option String
deriving DecidableEq

/-- One stored `match_stats` row. The numeric columns are `NUMERIC DEFAULT 0`
and every write path inserts them through `COALESCE(:x, 0)`, so they are
never `NULL` once stored; `formation` is nullable. The `updated_at`
timestamp is not modelled. -/
structure StatsRow where
  shots_on_target : ℚ
  accurate_passes : ℚ
  fouls_committed : ℚ
  corners : ℚ
  possession_pct : ℚ
  total_shots : ℚ
  formation : Option String
deriving DecidableEq

/-- The row proposed for insertion by the `INSERT ... VALUES` list
(`src/etl/etl_script.py` lines 2437-2446): each numeric parameter is
wrapped in `COALESCE(:x, 0)`, `formation` is passed through. Under
`ON CONFLICT` this is also the row `EXCLUDED` refers to. -/
def insertedRow (f : StatFields) : StatsRow :=
  { shots_on_target := f.shots_on_target.getD 0,
    accurate_passes := f.accurate_passes.getD 0,
    fouls_committed := f.fouls_committed.getD 0,
    corners := f.corners.getD 0,
    possession_pct := f.possession_pct.getD 0,
    total_shots := f.total_shots.getD 0,
    formation := f.formation }

/-- The `ON CONFLICT (match_id, team_id) DO UPDATE SET` clause
(`src/etl/etl_script.py` lines 2447-2455):
`col = COALESCE(EXCLUDED.col, match_stats.col)` for every numeric column
except `corners`, which is `COALESCE(EXCLUDED.corners, 0)`, and
`formation = COALESCE(EXCLUDED.formation, match_stats.formation)`.
`EXCLUDED.col` is the corresponding field of `insertedRow f`; note the
numeric ones are never `NULL` there, having been coalesced to 0 already in
the `VALUES` list. -/
def onConflictUpdate (f : StatFields) (stored : StatsRow) : StatsRow :=
  let excluded := insertedRow f
  { shots_on_target := (some excluded.shots_on_target).getD stored.shots_on_target,
    accurate_passes := (some excluded.accurate_passes).getD stored.accurate_passes,
    fouls_committed := (some excluded.fouls_committed).getD stored.fouls_committed,
    corners := (some excluded.corners).getD 0,
    possession_pct := (some excluded.possession_pct).getD stored.possession_pct,
    total_shots := (some excluded.total_shots).getD stored.total_shots,
    formation := excluded.formation <|> stored.formation }

/-- The state of the `match_stats` table, keyed by `(match_id, team_id)`. -/
def StatsStore : Type := String × String → Option StatsRow

/-- The primary upsert path of `load_match_stats`
(`src/etl/etl_script.py` lines 2431-2458): `INSERT ... ON CONFLICT
(match_id, team_id) DO UPDATE SET ...` against the unique index on
`(match_id, team_id)`. -/
def upsertOnConflict (key : String × String) (f : StatFields)
    (store : StatsStore) : StatsStore :=
  fun k =>
    if k = key then
      match store key with
      | none => some (insertedRow f)
      | some stored => some (onConflictUpdate f stored)
    else store k

/-- The `UPDATE` statement of the fallback path
(`src/etl/etl_script.py` lines 2491-2505), run when the plain `INSERT`
raises `IntegrityError`: `col = COALESCE(:col, match_stats.col)` for every
numeric column except `corners = COALESCE(:corners, 0)`, and
`formation = COALESCE(:formation, match_stats.formation)`. Here the raw
parameters (possibly `NULL`) are coalesced against the stored values. -/
def fallbackUpdate (f : StatFields) (stored : StatsRow) : StatsRow :=
  { shots_on_target := f.shots_on_target.getD stored.shots_on_target,
    accurate_passes := f.accurate_passes.getD stored.accurate_passes,
    fouls_committed := f.fouls_committed.getD stored.fouls_committed,
    corners := f.corners.getD 0,
    possession_pct := f.possession_pct.getD stored.possession_pct,
    total_shots := f.total_shots.getD stored.total_shots,
    formation := f.formation <|> stored.formation }

/-- The fallback upsert path of `load_match_stats`
(`src/etl/etl_script.py` lines 2462-2508): try a plain `INSERT`; on
`IntegrityError` (the `(match_id, team_id)` key already exists) run the
`UPDATE` of `fallbackUpdate` instead. -/
def upsertInsertThenUpdate (key : String × String) (f : StatFields)
    (store : StatsStore) : StatsStore :=
  fun k =>
    if k = key then
      match store key with
      | none => some (insertedRow f)
      | some stored => some (fallbackUpdate f stored)
    else store k

/-- C10: the integer field cleaner is total and strips all characters
except digits and the minus sign before conversion: null sentinels
(`null`, `none`, `""`, `nan`, case-insensitively) and unparseable
remainders yield 0; because the decimal point is stripped rather than
interpreted, `"3.5"` yields 35, not 3; and `clean_corners` computes
exactly the same value as `clean_int` on every input. -/
theorem c10_clean_int_strips_and_defaults :
    clean_int "3.5" = 35 ∧
    clean_int "null" = 0 ∧ clean_int "none" = 0 ∧ clean_int "" = 0 ∧
    clean_int "nan" = 0 ∧ clean_int "NaN" = 0 ∧
    clean_int "abc" = 0 ∧ clean_int "1-2" = 0 ∧ clean_int "-" = 0 ∧
    clean_int "75%" = 75 ∧
    (∀ value team_name, clean_corners value team_name = clean_int value) := by
  refine ⟨?_, ?_, ?_, ?_, ?_, ?_, ?_, ?_, ?_, ?_, fun _ _ => rfl⟩ <;> decide

/-- C9: the `TEAM_NAME_MAPPING` literal binds the key `"bfc"` twice, first
to `"Brentford"` and later to `"Burnley"`; the later binding wins in the
constructed dict, so every input whose trimmed lower-cased form is `"bfc"`
normalizes to `"Burnley"` (and never to `"Brentford"` via that key),
independently of the fuzzy matcher. -/
theorem c9_bfc_duplicate_later_binding_wins :
    ((TEAM_NAME_MAPPING_entries.filter (fun kv => kv.1 == "bfc")).map Prod.snd
      = ["Brentford", "Burnley"]) ∧
    pyDictLookup TEAM_NAME_MAPPING_entries "bfc" = some "Burnley" ∧
    (∀ fuzzy fuzzy_threshold team_name, pyLower (pyStrip team_name) = "bfc" →
      normalize_team_name fuzzy fuzzy_threshold team_name = some "Burnley") := by
  refine ⟨by decide, by decide, ?_⟩
  intro fuzzy fuzzy_threshold team_name h
  have hne : team_name ≠ "" := by
    intro he
    rw [he] at h
    exact absurd h (by decide)
  simp only [normalize_team_name, if_neg hne]
  rw [h, show pyDictLookup TEAM_NAME_MAPPING_entries "bfc" = some "Burnley"
    from by decide]

/-- C9 witness: a concrete input whose trimmed lower-cased form is `"bfc"`
normalizes to `"Burnley"`. -/
theorem c9_bfc_witness :
    normalize_team_name (fun _ => none) 80 "  BFC " = some "Burnley" :=
  c9_bfc_duplicate_later_binding_wins.2.2 (fun _ => none) 80 "  BFC " (by decide)

/-- C5: a raw team name whose trimmed lower-cased form is a key of the
alias table is canonicalized to the mapped canonical name immediately,
with a result independent of the fuzzy matcher and threshold (fuzzy
matching is not consulted); in particular `"Man Utd"` yields
`"Manchester United"` and `"Arsenal"` yields `"Arsenal"`. -/
theorem c5_exact_alias_hit_bypasses_fuzzy :
    (∀ fuzzy fuzzy2 fuzzy_threshold fuzzy_threshold2 team_name v,
      team_name ≠ "" →
      pyDictLookup TEAM_NAME_MAPPING_entries (pyLower (pyStrip team_name))
        = some v →
      normalize_team_name fuzzy fuzzy_threshold team_name = some v ∧
      normalize_team_name fuzzy fuzzy_threshold team_name
        = normalize_team_name fuzzy2 fuzzy_threshold2 team_name) ∧
    (∀ fuzzy fuzzy_threshold,
      normalize_team_name fuzzy fuzzy_threshold "Man Utd"
        = some "Manchester United") ∧
    (∀ fuzzy fuzzy_threshold,
      normalize_team_name fuzzy fuzzy_threshold "Arsenal" = some "Arsenal") := by
  refine ⟨?_, fun _ _ => rfl, fun _ _ => rfl⟩
  intro fuzzy fuzzy2 t t2 team_name v hne hv
  constructor
  · simp only [normalize_team_name, if_neg hne]
    rw [hv]
  · simp only [normalize_team_name, if_neg hne]
    rw [hv]

/-- C5 witness: the exact-alias hit for `"Man Utd"`, with two different
fuzzy matchers giving the same result. -/
theorem c5_exact_alias_witness :
    normalize_team_name (fun _ => none) 80 "Man Utd"
      = some "Manchester United" ∧
    normalize_team_name (fun _ => none) 80 "Man Utd"
      = normalize_team_name (fun _ => some ("Chelsea", 100)) 0 "Man Utd" :=
  c5_exact_alias_hit_bypasses_fuzzy.1 (fun _ => none)
    (fun _ => some ("Chelsea", 100)) 80 0 "Man Utd" "Manchester United"
    (by decide) (by decide)

/-- C3: fixture parsing tries separators in the fixed precedence order
`" at "`, `" vs "`, `" - "`, `" v "`, `" @ "`; the first separator present
splits the trimmed input into two trimmed parts, reversed to
(home, away) = (second, first) for `" at "` and `" @ "` and in order for
the others; an input containing no separator yields `(none, none)`.
In particular `"Arsenal at Liverpool"` parses to
`(Liverpool, Arsenal)` and `"Arsenal vs Liverpool"` to
`(Arsenal, Liverpool)`. -/
theorem c3_parse_fixture_separator_precedence :
    parse_fixture "Arsenal at Liverpool" = (some "Liverpool", some "Arsenal") ∧
    parse_fixture "Arsenal vs Liverpool" = (some "Arsenal", some "Liverpool") ∧
    (∀ fixture : String,
      (∀ sep ∈ FIXTURE_SEPARATORS, pySplitOnce (pyStrip fixture) sep = none) →
      parse_fixture fixture = (none, none)) ∧
    (∀ fixture parts, fixture ≠ "" →
      pySplitOnce (pyStrip fixture) " at " = some parts →
      parse_fixture fixture = (some (pyStrip parts.2), some (pyStrip parts.1))) ∧
    (∀ fixture parts, fixture ≠ "" →
      pySplitOnce (pyStrip fixture) " at " = none →
      pySplitOnce (pyStrip fixture) " vs " = some parts →
      parse_fixture fixture = (some (pyStrip parts.1), some (pyStrip parts.2))) ∧
    (∀ fixture parts, fixture ≠ "" →
      pySplitOnce (pyStrip fixture) " at " = none →
      pySplitOnce (pyStrip fixture) " vs " = none →
      pySplitOnce (pyStrip fixture) " - " = some parts →
      parse_fixture fixture = (some (pyStrip parts.1), some (pyStrip parts.2))) ∧
    (∀ fixture parts, fixture ≠ "" →
      pySplitOnce (pyStrip fixture) " at " = none →
      pySplitOnce (pyStrip fixture) " vs " = none →
      pySplitOnce (pyStrip fixture) " - " = none →
      pySplitOnce (pyStrip fixture) " v " = some parts →
      parse_fixture fixture = (some (pyStrip parts.1), some (pyStrip parts.2))) ∧
    (∀ fixture parts, fixture ≠ "" →
      pySplitOnce (pyStrip fixture) " at " = none →
      pySplitOnce (pyStrip fixture) " vs " = none →
      pySplitOnce (pyStrip fixture) " - " = none →
      pySplitOnce (pyStrip fixture) " v " = none →
      pySplitOnce (pyStrip fixture) " @ " = some parts →
      parse_fixture fixture = (some (pyStrip parts.2), some (pyStrip parts.1))) := by
  refine ⟨by decide, by decide, ?_, ?_, ?_, ?_, ?_, ?_⟩
  · intro fixture H
    by_cases hf : fixture = ""
    · simp [parse_fixture, hf]
    · have h1 := H " at " (by decide)
      have h2 := H " vs " (by decide)
      have h3 := H " - " (by decide)
      have h4 := H " v " (by decide)
      have h5 := H " @ " (by decide)
      simp [parse_fixture, hf, FIXTURE_SEPARATORS, parse_fixture_go,
        h1, h2, h3, h4, h5]
  · intro fixture parts hf h1
    simp [parse_fixture, hf, FIXTURE_SEPARATORS, parse_fixture_go, h1]
  · intro fixture parts hf h1 h2
    simp [parse_fixture, hf, FIXTURE_SEPARATORS, parse_fixture_go, h1, h2]
  · intro fixture parts hf h1 h2 h3
    simp [parse_fixture, hf, FIXTURE_SEPARATORS, parse_fixture_go, h1, h2, h3]
  · intro fixture parts hf h1 h2 h3 h4
    simp [parse_fixture, hf, FIXTURE_SEPARATORS, parse_fixture_go,
      h1, h2, h3, h4]
  · intro fixture parts hf h1 h2 h3 h4 h5
    simp [parse_fixture, hf, FIXTURE_SEPARATORS, parse_fixture_go,
      h1, h2, h3, h4, h5]

/-- C3 witness: a no-separator input is rejected and an `" at "` input is
split reversed, at concrete inputs. -/
theorem c3_parse_fixture_witness :
    parse_fixture "ArsenalLiverpool" = (none, none) ∧
    parse_fixture "Everton at Fulham" = (some "Fulham", some "Everton") :=
  ⟨c3_parse_fixture_separator_precedence.2.2.1 "ArsenalLiverpool" (by decide),
   c3_parse_fixture_separator_precedence.2.2.2.1 "Everton at Fulham"
     ("Everton", "Fulham") (by decide) (by decide)⟩

/-- C8: the map-based team-name normalizer used for statistics rows is
total over non-empty inputs: when the trimmed name matches no entry of the
`TEAM_NAME_MAP` parameter (neither exactly nor case-insensitively), no
entry of `PREMIER_LEAGUE_STATS_MAPPING`, and the alias-plus-fuzzy
normalizer returns no match, the trimmed original input is returned
unchanged rather than `none`. -/
theorem c8_normalizer_with_map_total
    (TEAM_NAME_MAP : List (String × String))
    (fuzzy : String → Option (String × Nat)) (team_name : String)
    (h0 : team_name ≠ "")
    (h1 : pyDictLookup TEAM_NAME_MAP (pyStrip team_name) = none)
    (h2 : TEAM_NAME_MAP.find?
      (fun kv => pyLower kv.1 == pyLower (pyStrip team_name)) = none)
    (h3 : pyDictLookup PREMIER_LEAGUE_STATS_MAPPING_entries
      (pyStrip team_name) = none)
    (h4 : normalize_team_name fuzzy 80 (pyStrip team_name) = none) :
    normalize_team_name_with_map TEAM_NAME_MAP fuzzy team_name
      = some (pyStrip team_name) := by
  simp only [normalize_team_name_with_map, if_neg h0]
  rw [h1, h2, h3, h4]

/-- C8 witness: a concrete unmapped name falls through every lookup and is
returned trimmed. -/
theorem c8_normalizer_with_map_witness :
    normalize_team_name_with_map [] (fun _ => none) " Queens Park "
      = some "Queens Park" :=
  c8_normalizer_with_map_total [] (fun _ => none) " Queens Park "
    (by decide) (by decide) (by decide) (by decide) (by decide)

/-- C6: resolution of an auxiliary statistics row against the master match
index rejects the row (no match identifier) with a reason specific to the
failure mode: an invalid date reports `Invalid date`; a home or away team
name absent from the exact name-to-identifier table reports that team as
not found in the database; and a row whose teams both resolve but whose
composite key is absent from the index reports that no exact match was
found for that key. -/
theorem c6_mapping_rejection_reasons
    (team_id_map master_match_map : String → Option String)
    (home away : String) :
    (match_csv_row_to_master_map team_id_map master_match_map home away none
      = (none, some "MAPPING_ERROR: Invalid date")) ∧
    (∀ d, team_id_map home = none →
      match_csv_row_to_master_map team_id_map master_match_map home away (some d)
        = (none, some ("MAPPING_ERROR: Home team " ++ quoteStr home
            ++ " not found in database"))) ∧
    (∀ d hid, team_id_map home = some hid → hid ≠ "" →
      team_id_map away = none →
      match_csv_row_to_master_map team_id_map master_match_map home away (some d)
        = (none, some ("MAPPING_ERROR: Away team " ++ quoteStr away
            ++ " not found in database"))) ∧
    (∀ d hid aid, team_id_map home = some hid → hid ≠ "" →
      team_id_map away = some aid → aid ≠ "" →
      master_match_map (d ++ "_" ++ hid ++ "_" ++ aid) = none →
      match_csv_row_to_master_map team_id_map master_match_map home away (some d)
        = (none, some ("MAPPING_ERROR: No exact match found for key "
            ++ quoteStr (d ++ "_" ++ hid ++ "_" ++ aid) ++ " (Date: " ++ d
            ++ ", Home: " ++ home ++ ", Away: " ++ away ++ ")"))) := by
  refine ⟨rfl, ?_, ?_, ?_⟩
  · intro d hh
    simp [match_csv_row_to_master_map, pyTruthy, hh]
  · intro d hid hh hhne ha
    simp [match_csv_row_to_master_map, pyTruthy, hh, hhne, ha]
  · intro d hid aid hh hhne ha hane hkey
    simp [match_csv_row_to_master_map, pyTruthy, hh, hhne, ha, hane, hkey]

/-- C6 witness: the three rejection modes at concrete inputs over a
two-team name table and an empty index. -/
theorem c6_mapping_rejection_witness :
    (match_csv_row_to_master_map
        (fun n => if n = "Arsenal" then some "T1"
          else if n = "Liverpool" then some "T2" else none)
        (fun _ => none) "Arsenal" "Liverpool" none
      = (none, some "MAPPING_ERROR: Invalid date")) ∧
    (match_csv_row_to_master_map
        (fun n => if n = "Arsenal" then some "T1"
          else if n = "Liverpool" then some "T2" else none)
        (fun _ => none) "Wigan" "Liverpool" (some "2023-08-19")
      = (none, some ("MAPPING_ERROR: Home team " ++ quoteStr "Wigan"
          ++ " not found in database"))) ∧
    (match_csv_row_to_master_map
        (fun n => if n = "Arsenal" then some "T1"
          else if n = "Liverpool" then some "T2" else none)
        (fun _ => none) "Arsenal" "Wigan" (some "2023-08-19")
      = (none, some ("MAPPING_ERROR: Away team " ++ quoteStr "Wigan"
          ++ " not found in database"))) ∧
    (match_csv_row_to_master_map
        (fun n => if n = "Arsenal" then some "T1"
          else if n = "Liverpool" then some "T2" else none)
        (fun _ => none) "Arsenal" "Liverpool" (some "2023-08-19")
      = (none, some ("MAPPING_ERROR: No exact match found for key "
          ++ quoteStr ("2023-08-19" ++ "_" ++ "T1" ++ "_" ++ "T2")
          ++ " (Date: " ++ "2023-08-19" ++ ", Home: " ++ "Arsenal"
          ++ ", Away: " ++ "Liverpool" ++ ")"))) := by
  refine ⟨?_, ?_, ?_, ?_⟩
  · exact (c6_mapping_rejection_reasons _ _ "Arsenal" "Liverpool").1
  · exact (c6_mapping_rejection_reasons _ _ "Wigan" "Liverpool").2.1
      "2023-08-19" (by decide)
  · exact (c6_mapping_rejection_reasons _ _ "Arsenal" "Wigan").2.2.1
      "2023-08-19" "T1" (by decide) (by decide) (by decide)
  · exact (c6_mapping_rejection_reasons _ _ "Arsenal" "Liverpool").2.2.2
      "2023-08-19" "T1" "T2" (by decide) (by decide) (by decide) (by decide)
      (by decide)

/-- C7: side identification never defaults: for a resolved match whose
info is in the map and a team whose identifier resolves, equality with the
home or the away identifier returns that identifier, and equality with
neither rejects the row with a team-not-a-participant error and assigns no
team identifier. -/
theorem c7_side_identification_never_defaults
    (match_info_map : String → Option MatchInfo)
    (team_id_map : String → Option String)
    (mid team : String) (info : MatchInfo) (tid : String)
    (hmid : mid ≠ "")
    (hinfo : match_info_map mid = some info)
    (htid : team_id_map team = some tid) (htidne : tid ≠ "") :
    ((tid = info.home_team_id ∨ tid = info.away_team_id) →
      identify_team_id match_info_map team_id_map (some mid) team
        = (some tid, none)) ∧
    (tid ≠ info.home_team_id → tid ≠ info.away_team_id →
      identify_team_id match_info_map team_id_map (some mid) team
        = (none, some ("Team identification error: Team " ++ quoteStr team
            ++ " (id: " ++ tid ++ ") does not match home_team_id ("
            ++ info.home_team_id ++ ") or away_team_id ("
            ++ info.away_team_id ++ ") for match " ++ mid))) := by
  constructor
  · rintro (hh | ha)
    · subst hh
      simp [identify_team_id, pyTruthy, hmid, hinfo, htid, htidne]
    · by_cases hh : tid = info.home_team_id
      · subst hh
        simp [identify_team_id, pyTruthy, hmid, hinfo, htid, htidne]
      · subst ha
        simp [identify_team_id, pyTruthy, hmid, hinfo, htid, htidne, hh]
  · intro hh ha
    simp [identify_team_id, pyTruthy, hmid, hinfo, htid, htidne, hh, ha]

/-- C7 witness: a home-side hit and a non-participant rejection at
concrete inputs. -/
theorem c7_side_identification_witness :
    (identify_team_id (fun m => if m = "M1" then some ⟨"T1", "T2"⟩ else none)
        (fun t => if t = "Arsenal" then some "T1"
          else if t = "Chelsea" then some "T3" else none)
        (some "M1") "Arsenal"
      = (some "T1", none)) ∧
    (identify_team_id (fun m => if m = "M1" then some ⟨"T1", "T2"⟩ else none)
        (fun t => if t = "Arsenal" then some "T1"
          else if t = "Chelsea" then some "T3" else none)
        (some "M1") "Chelsea"
      = (none, some ("Team identification error: Team " ++ quoteStr "Chelsea"
          ++ " (id: " ++ "T3" ++ ") does not match home_team_id ("
          ++ "T1" ++ ") or away_team_id (" ++ "T2" ++ ") for match "
          ++ "M1"))) := by
  constructor
  · exact (c7_side_identification_never_defaults _ _ "M1" "Arsenal"
      ⟨"T1", "T2"⟩ "T1" (by decide) (by decide) (by decide) (by decide)).1
      (Or.inl rfl)
  · exact (c7_side_identification_never_defaults _ _ "M1" "Chelsea"
      ⟨"T1", "T2"⟩ "T3" (by decide) (by decide) (by decide) (by decide)).2
      (by decide) (by decide)

/-- C1 counterexample: upserting fields with `possession = 0` over a
stored `possession_pct = 55.2` does NOT leave the stored value at 55.2 —
both write paths set it to 0, because the `COALESCE` guards only treat SQL
`NULL` (not zero) as the empty sentinel and the `VALUES` list has already
coalesced `NULL` to 0 before `EXCLUDED` is consulted. -/
theorem c1_zero_overwrites_counterexample :
    (upsertOnConflict ("m1", "t1")
        ⟨some 4, some 90, some 8, some 2, some 0, some 9, none⟩
        (fun k => if k = ("m1", "t1")
          then some ⟨3, 100, 10, 5, 552/10, 12, some "4-3-3"⟩ else none)
        ("m1", "t1")).map StatsRow.possession_pct = some 0 ∧
    (upsertInsertThenUpdate ("m1", "t1")
        ⟨some 4, some 90, some 8, some 2, some 0, some 9, none⟩
        (fun k => if k = ("m1", "t1")
          then some ⟨3, 100, 10, 5, 552/10, 12, some "4-3-3"⟩ else none)
        ("m1", "t1")).map StatsRow.possession_pct = some 0 ∧
    (0 : ℚ) ≠ 552/10 := by
  refine ⟨?_, ?_, by norm_num⟩ <;> rfl

/-- C1 (amended): on a key already present, the upsert's only guarded
sentinel is SQL `NULL`, and only partially: in the `ON CONFLICT` path
every numeric field becomes the incoming value with `NULL` coalesced to 0
(so an incoming zero or `NULL` overwrites a stored non-default value, and
an incoming non-default value overwrites a stored default), while in the
insert-then-update fallback an incoming `NULL` numeric preserves the
stored value except for `corners`, which is reset to 0; in both paths only
`formation` preserves the stored value when the incoming value is
`NULL`. -/
theorem c1_amended_null_coalesce_characterization
    (key : String × String) (f : StatFields) (store : StatsStore)
    (stored : StatsRow) (h : store key = some stored) :
    upsertOnConflict key f store key = some
      { shots_on_target := f.shots_on_target.getD 0,
        accurate_passes := f.accurate_passes.getD 0,
        fouls_committed := f.fouls_committed.getD 0,
        corners := f.corners.getD 0,
        possession_pct := f.possession_pct.getD 0,
        total_shots := f.total_shots.getD 0,
        formation := f.formation <|> stored.formation } ∧
    upsertInsertThenUpdate key f store key = some
      { shots_on_target := f.shots_on_target.getD stored.shots_on_target,
        accurate_passes := f.accurate_passes.getD stored.accurate_passes,
        fouls_committed := f.fouls_committed.getD stored.fouls_committed,
        corners := f.corners.getD 0,
        possession_pct := f.possession_pct.getD stored.possession_pct,
        total_shots := f.total_shots.getD stored.total_shots,
        formation := f.formation <|> stored.formation } := by
  constructor <;>
    simp [upsertOnConflict, upsertInsertThenUpdate, onConflictUpdate,
      fallbackUpdate, insertedRow, h]

/-- C1 (amended) witness: the characterization applied at a concrete
stored row and concrete incoming fields (with some `NULL`s and a zero). -/
theorem c1_amended_witness :
    upsertOnConflict ("m1", "t1")
        ⟨some 4, none, some 8, none, some 0, some 9, none⟩
        (fun _ => some ⟨3, 100, 10, 5, 552/10, 12, some "4-3-3"⟩)
        ("m1", "t1")
      = some
        { shots_on_target := 4, accurate_passes := 0,
          fouls_committed := 8, corners := 0, possession_pct := 0,
          total_shots := 9, formation := some "4-3-3" } ∧
    upsertInsertThenUpdate ("m1", "t1")
        ⟨some 4, none, some 8, none, some 0, some 9, none⟩
        (fun _ => some ⟨3, 100, 10, 5, 552/10, 12, some "4-3-3"⟩)
        ("m1", "t1")
      = some
        { shots_on_target := 4, accurate_passes := 100,
          fouls_committed := 8, corners := 0, possession_pct := 0,
          total_shots := 9, formation := some "4-3-3" } := by
  have h := c1_amended_null_coalesce_characterization ("m1", "t1")
    ⟨some 4, none, some 8, none, some 0, some 9, none⟩
    (fun _ => some ⟨3, 100, 10, 5, 552/10, 12, some "4-3-3"⟩)
    ⟨3, 100, 10, 5, 552/10, 12, some "4-3-3"⟩ rfl
  refine ⟨?_, ?_⟩
  · rw [h.1]
    rfl
  · rw [h.2]
    rfl

/-- `Option.getD` absorbs a repeated default of itself. -/
theorem optionGetD_absorb (a : Option ℚ) (d : ℚ) :
    a.getD (a.getD d) = a.getD d := by
  cases a <;> rfl

/-- `Option.orElse` of an option with itself. -/
theorem optionOrElse_self (a : Option String) : (a <|> a) = a := by
  cases a <;> rfl

/-- `Option.orElse` absorbs a repeated first argument. -/
theorem optionOrElse_absorb (a b : Option String) :
    (a <|> (a <|> b)) = (a <|> b) := by
  cases a <;> rfl

/-- Re-applying the `ON CONFLICT` update with the same fields to its own
result changes nothing. -/
theorem onConflictUpdate_insertedRow (f : StatFields) :
    onConflictUpdate f (insertedRow f) = insertedRow f := by
  simp [onConflictUpdate, insertedRow, optionOrElse_self]

/-- The `ON CONFLICT` update is idempotent on the stored row. -/
theorem onConflictUpdate_idem (f : StatFields) (s : StatsRow) :
    onConflictUpdate f (onConflictUpdate f s) = onConflictUpdate f s := by
  simp [onConflictUpdate, insertedRow, optionOrElse_absorb]

/-- Re-applying the fallback `UPDATE` with the same fields to the row the
fallback `INSERT` produced changes nothing. -/
theorem fallbackUpdate_insertedRow (f : StatFields) :
    fallbackUpdate f (insertedRow f) = insertedRow f := by
  simp [fallbackUpdate, insertedRow, optionGetD_absorb, optionOrElse_self]

/-- The fallback `UPDATE` is idempotent on the stored row. -/
theorem fallbackUpdate_idem (f : StatFields) (s : StatsRow) :
    fallbackUpdate f (fallbackUpdate f s) = fallbackUpdate f s := by
  simp [fallbackUpdate, optionGetD_absorb, optionOrElse_absorb]

/-- C2: the statistics upsert is idempotent: applying the same field set
twice in succession to the same `(match_id, team_id)` key leaves the store
in the same state as applying it once, on both the `ON CONFLICT` path and
the insert-then-update fallback path. (The source always binds the full
field set, so every field record — in particular every non-empty one — is
covered.) -/
theorem c2_upsert_idempotent (key : String × String) (f : StatFields)
    (store : StatsStore) :
    upsertOnConflict key f (upsertOnConflict key f store)
      = upsertOnConflict key f store ∧
    upsertInsertThenUpdate key f (upsertInsertThenUpdate key f store)
      = upsertInsertThenUpdate key f store := by
  constructor
  · funext k
    by_cases hk : k = key
    · subst hk
      simp only [upsertOnConflict, if_pos rfl]
      cases hs : store k
      · simp [onConflictUpdate_insertedRow]
      · simp [onConflictUpdate_idem]
    · simp only [upsertOnConflict, if_neg hk]
  · funext k
    by_cases hk : k = key
    · subst hk
      simp only [upsertInsertThenUpdate, if_pos rfl]
      cases hs : store k
      · simp [fallbackUpdate_insertedRow]
      · simp [fallbackUpdate_idem]
    · simp only [upsertInsertThenUpdate, if_neg hk]

/-- `List.lookup` distributes over append, preferring the left list. -/
theorem list_lookup_append (l1 l2 : List (String × String)) (k : String) :
    (l1 ++ l2).lookup k = (l1.lookup k <|> l2.lookup k) := by
  induction l1 with
  | nil => simp [List.lookup]
  | cons p l ih =>
    obtain ⟨a, b⟩ := p
    cases hk : (k == a) <;> simp [List.lookup, hk, ih]

/-- The map component built by folding `buildStep` is a first-wins index:
looking up any key returns the initial map's binding if present, and
otherwise the identifier of the FIRST scanned record bearing that key. -/
theorem foldl_buildStep_lookup (ms : List MatchRec)
    (m d : List (String × String)) (k : String) :
    ((ms.foldl buildStep (m, d)).1).lookup k
      = (m.lookup k <|>
        ((ms.find? (fun r => masterKey r == k)).map MatchRec.match_id)) := by
  induction ms generalizing m d with
  | nil => simp
  | cons r ms ih =>
    simp only [List.foldl_cons]
    by_cases h : (m.lookup (masterKey r)).isSome
    · rw [show buildStep (m, d) r = (m, d ++ [(masterKey r, r.match_id)])
        from by simp [buildStep, h]]
      rw [ih]
      cases hbk : (masterKey r == k)
      · simp [List.find?_cons, hbk]
      · have hk : masterKey r = k := eq_of_beq hbk
        subst hk
        obtain ⟨v, hv⟩ := Option.isSome_iff_exists.mp h
        rw [hv]
        simp [List.find?_cons, hbk]
    · rw [show buildStep (m, d) r = (m ++ [(masterKey r, r.match_id)], d)
        from by simp [buildStep, h]]
      rw [ih, list_lookup_append]
      cases hbk : (masterKey r == k)
      · have hne : ¬(k == masterKey r) = true := by
          intro he
          have := eq_of_beq he
          subst this
          simp at hbk
        simp [List.find?_cons, hbk, List.lookup, hne]
      · have hk : masterKey r = k := eq_of_beq hbk
        subst hk
        have hm : m.lookup (masterKey r) = none :=
          Option.not_isSome_iff_eq_none.mp h
        rw [hm]
        simp [List.find?_cons, hbk, List.lookup]

/-- Folding `buildStep` only ever appends to the duplicate-report list. -/
theorem foldl_buildStep_dups_mono (ms : List MatchRec)
    (m d : List (String × String)) :
    ∃ d2, (ms.foldl buildStep (m, d)).2 = d ++ d2 := by
  induction ms generalizing m d with
  | nil => exact ⟨[], by simp⟩
  | cons r ms ih =>
    simp only [List.foldl_cons]
    by_cases h : (m.lookup (masterKey r)).isSome
    · rw [show buildStep (m, d) r = (m, d ++ [(masterKey r, r.match_id)])
        from by simp [buildStep, h]]
      obtain ⟨d2, hd⟩ := ih m (d ++ [(masterKey r, r.match_id)])
      exact ⟨[(masterKey r, r.match_id)] ++ d2, by rw [hd, List.append_assoc]⟩
    · rw [show buildStep (m, d) r = (m ++ [(masterKey r, r.match_id)], d)
        from by simp [buildStep, h]]
      exact ih (m ++ [(masterKey r, r.match_id)]) d

/-- C4: when the master match index is built from the persisted match
records, a record whose composite `(date, home_team_id, away_team_id)` key
was already scanned does not overwrite the earlier entry — the built index
maps the key to the identifier of the first-scanned record bearing it (the
`find?` below) — and the later record is reported as a duplicate. -/
theorem c4_master_index_first_wins
    (l1 l2 l3 : List MatchRec) (r1 r2 : MatchRec)
    (hkey : masterKey r1 = masterKey r2) :
    ((buildMasterMatchMap (l1 ++ r1 :: l2 ++ r2 :: l3)).1).lookup (masterKey r2)
      = (((l1 ++ r1 :: l2 ++ r2 :: l3).find?
          (fun r => masterKey r == masterKey r2)).map MatchRec.match_id) ∧
    ((l1 ++ r1 :: l2 ++ r2 :: l3).find?
      (fun r => masterKey r == masterKey r2)).isSome ∧
    (masterKey r2, r2.match_id) ∈ (buildMasterMatchMap (l1 ++ r1 :: l2 ++ r2 :: l3)).2 := by
  refine ⟨?_, ?_, ?_⟩
  · rw [buildMasterMatchMap, foldl_buildStep_lookup]
    simp
  · rw [List.find?_isSome]
    refine ⟨r1, by simp, by simp [hkey]⟩
  · have hsplit : l1 ++ r1 :: l2 ++ r2 :: l3
        = (l1 ++ r1 :: l2) ++ (r2 :: l3) := by simp
    rw [buildMasterMatchMap, hsplit, List.foldl_append]
    set p := (l1 ++ r1 :: l2).foldl buildStep ([], []) with hp
    have hsome : (p.1.lookup (masterKey r2)).isSome := by
      rw [hp, foldl_buildStep_lookup]
      have : ((l1 ++ r1 :: l2).find?
          (fun r => masterKey r == masterKey r2)).isSome := by
        rw [List.find?_isSome]
        exact ⟨r1, by simp, by simp [hkey]⟩
      obtain ⟨r, hr⟩ := Option.isSome_iff_exists.mp this
      simp [hr]
    simp only [List.foldl_cons]
    rw [show buildStep p r2 = (p.1, p.2 ++ [(masterKey r2, r2.match_id)])
      from by simp [buildStep, hsome]]
    obtain ⟨d2, hd⟩ := foldl_buildStep_dups_mono l3 p.1
      (p.2 ++ [(masterKey r2, r2.match_id)])
    rw [hd]
    simp

/-- C4 witness: two concrete records with the same composite key — the
index keeps the first identifier and the second is reported. -/
theorem c4_master_index_witness :
    ((buildMasterMatchMap
      [⟨"A", "2023-08-19", "h1", "a1"⟩, ⟨"B", "2023-08-19", "h1", "a1"⟩]).1).lookup
        (masterKey ⟨"B", "2023-08-19", "h1", "a1"⟩) = some "A" ∧
    (masterKey ⟨"B", "2023-08-19", "h1", "a1"⟩, "B")
      ∈ (buildMasterMatchMap
        [⟨"A", "2023-08-19", "h1", "a1"⟩, ⟨"B", "2023-08-19", "h1", "a1"⟩]).2 := by
  have h := c4_master_index_first_wins [] [] []
    ⟨"A", "2023-08-19", "h1", "a1"⟩ ⟨"B", "2023-08-19", "h1", "a1"⟩ rfl
  refine ⟨?_, ?_⟩
  · rw [show ([] ++ (⟨"A", "2023-08-19", "h1", "a1"⟩ : MatchRec)
        :: [] ++ (⟨"B", "2023-08-19", "h1", "a1"⟩ : MatchRec) :: [])
      = [⟨"A", "2023-08-19", "h1", "a1"⟩, ⟨"B", "2023-08-19", "h1", "a1"⟩]
      from rfl] at h
    rw [h.1]
    rfl
  · have := h.2.2
    simpa using this
